import Mathlib

/-!
Verification of the Anchor SDK core (anchorco/anchor-sdk) against its
natural-language specification.

The repository ships the TypeScript source of the Policy Pack Builder
(src/typescript-sdk/src/policies.ts); the Request Layer exists in the
repository only through its changelog and the specification, so it is
modelled from the spec where needed.

JavaScript runtime values that can be `undefined`, `null`, or a proper
value are embedded as `Option (Option α)`: `none` is `undefined` (the
field was not provided), `some none` is an explicit `null`, and
`some (some a)` is the value `a`.
-/

namespace AnchorSDK

/-- A JSON-ish value as it appears in a policies record: the builder only
ever stores numbers, string lists and booleans. -/
inductive PolicyValue where
  | num (n : Int)
  | strList (l : List String)
  | bool (b : Bool)
deriving DecidableEq, Repr

/-- Embedding of the TypeScript interface `DefaultPolicyPackConfig`.
Every field is optional at the call site, and the first three admit an
explicit `null`; the boolean flags are typed `boolean` in TypeScript but
can still receive `null` from untyped call sites, which the code handles
with the nullish-coalescing operator, so they too are doubly optional. -/
structure DefaultPolicyPackConfig where
  allowedDomains : Option (Option (List String)) := none
  maxQuerySize : Option (Option Int) := none
  requireApprovalFor : Option (Option (List String)) := none
  blockPii : Option (Option Bool) := none
  blockSecrets : Option (Option Bool) := none
deriving DecidableEq, Repr

/-- Embedding of the constant `DEFAULT_POLICY_CONFIG` in policies.ts. -/
structure DefaultPolicyDefaults where
  maxQuerySize : Int
  requireApprovalFor : List String
  blockPii : Bool
  blockSecrets : Bool
deriving DecidableEq, Repr

def DEFAULT_POLICY_CONFIG : DefaultPolicyDefaults :=
  { maxQuerySize := 1000
    requireApprovalFor := ["delete", "update", "export"]
    blockPii := true
    blockSecrets := true }

/-- JavaScript nullish coalescing `v ?? d` on a doubly-optional value:
both `undefined` and `null` fall back to the default. -/
def coalesce {α : Type} (v : Option (Option α)) (d : α) : α :=
  match v with
  | some (some a) => a
  | _ => d

/-- Keys inserted into the `policies` record by the `Array.isArray`
branch for `allowedDomains`: `Array.isArray` is false on both `null` and
`undefined`, so only a real list inserts the key. -/
def allowedSegment (config : DefaultPolicyPackConfig) : List (String × PolicyValue) :=
  match config.allowedDomains with
  | some (some l) => [("allowed_domains", PolicyValue.strList l)]
  | _ => []

/-- Keys inserted for `maxQuerySize`: the local `maxQuerySize` is the
default when the field is `undefined` and the field itself otherwise;
the key is inserted unless that local value is `null`. -/
def maxQuerySegment (config : DefaultPolicyPackConfig) : List (String × PolicyValue) :=
  let maxQuerySize : Option Int :=
    match config.maxQuerySize with
    | none => some DEFAULT_POLICY_CONFIG.maxQuerySize
    | some v => v
  match maxQuerySize with
  | some n => [("max_query_size", PolicyValue.num n)]
  | none => []

/-- Keys inserted for `requireApprovalFor`, with the same tri-state
handling as `maxQuerySize`. -/
def approvalSegment (config : DefaultPolicyPackConfig) : List (String × PolicyValue) :=
  let requireApprovalFor : Option (List String) :=
    match config.requireApprovalFor with
    | none => some DEFAULT_POLICY_CONFIG.requireApprovalFor
    | some v => v
  match requireApprovalFor with
  | some l => [("require_approval_for", PolicyValue.strList l)]
  | none => []

/-- Keys inserted unconditionally for the two boolean flags via
nullish coalescing against the defaults. -/
def flagsSegment (config : DefaultPolicyPackConfig) : List (String × PolicyValue) :=
  [("block_pii", PolicyValue.bool (coalesce config.blockPii DEFAULT_POLICY_CONFIG.blockPii)),
   ("block_secrets", PolicyValue.bool (coalesce config.blockSecrets DEFAULT_POLICY_CONFIG.blockSecrets))]

/-- The return shape of `getConfig`: a one-field object wrapping the
`policies` record, embedded as an association list in insertion order. -/
structure PoliciesResult where
  policies : List (String × PolicyValue)
deriving DecidableEq, Repr

/-- Embedding of the TypeScript class `DefaultPolicyPack`: its only state
is the private `config` stored by the constructor. -/
structure DefaultPolicyPack where
  config : DefaultPolicyPackConfig
deriving DecidableEq, Repr

/-- Embedding of `DefaultPolicyPack.getConfig`: builds the `policies`
record by the four insertion steps of the source, in source order. -/
def DefaultPolicyPack.getConfig (p : DefaultPolicyPack) : PoliciesResult :=
  { policies :=
      allowedSegment p.config ++ maxQuerySegment p.config ++
        approvalSegment p.config ++ flagsSegment p.config }

/-- The method embedded with explicit state passing: the body of
`getConfig` reads `this.config` and never assigns to it, so the
post-state is the receiver unchanged. -/
def DefaultPolicyPack.getConfigM (p : DefaultPolicyPack) :
    PoliciesResult × DefaultPolicyPack :=
  (p.getConfig, p)

/-- The spec's language-neutral name for the builder:
`new DefaultPolicyPack(overrides).getConfig()`. -/
def buildDefaultPolicies (overrides : DefaultPolicyPackConfig) : PoliciesResult :=
  (DefaultPolicyPack.mk overrides).getConfig

/-- First-match lookup of a key in a record embedded as an association
list, the semantics of reading a property of a JS object. -/
def lookupKey (k : String) : List (String × PolicyValue) → Option PolicyValue
  | [] => none
  | (k₀, v) :: rest => if k₀ = k then some v else lookupKey k rest

/-- Key set of a record embedded as an association list. -/
def keysOf (l : List (String × PolicyValue)) : List String :=
  l.map Prod.fst

/-! ## Request Layer

The Request Layer's source is not under the repository's shipped sources
(only its changelog and the specification describe it), so it is
modelled from the spec below. -/

/-- The five HTTP verbs the Request Layer supports. -/
inductive HttpMethod where
  | GET | POST | PUT | PATCH | DELETE
deriving DecidableEq, Repr

/-- Modelled from the spec: `ClientConfig` — API key, base URL, optional
default workspace identifier, and retry parameters (max attempts, base
delay, backoff multiplier). Delays are exact rationals. -/
structure ClientConfig where
  apiKey : String
  baseUrl : String
  defaultWorkspaceId : Option String := none
  maxAttempts : Nat
  baseDelay : ℚ
  backoffMultiplier : ℚ
deriving DecidableEq, Repr

/-- Modelled from the spec: `RequestSpec` — method, path, optional body,
optional query parameters, optional per-call workspace-id override.
Body and query are JSON-object-like string association lists. -/
structure RequestSpec where
  method : HttpMethod
  path : String
  body : List (String × String) := []
  query : List (String × String) := []
  workspaceOverride : Option String := none
deriving DecidableEq, Repr

/-- First-match lookup in a string association list (body or query). -/
def lookupField (k : String) : List (String × String) → Option String
  | [] => none
  | (k₀, v) :: rest => if k₀ = k then some v else lookupField k rest

/-- Modelled from the spec: the effective workspace id is
`spec.workspaceOverride ?? clientConfig.defaultWorkspaceId`. -/
def resolveWorkspace (cfg : ClientConfig) (spec : RequestSpec) : Option String :=
  match spec.workspaceOverride with
  | some w => some w
  | none => cfg.defaultWorkspaceId

/-- Merge a field into a body, body fields winning on key collision
(the spec's documented implementer choice for workspace injection). -/
def mergeField (k v : String) (body : List (String × String)) :
    List (String × String) :=
  match lookupField k body with
  | some _ => body
  | none => body ++ [(k, v)]

/-- Modelled from the spec: workspace-id injection inside `send`. If the
resolved id is present it is merged into the body for POST/PUT/PATCH and
appended to the query for GET/DELETE; if absent, the request goes out
untouched and one non-fatal warning is emitted. Returns the outgoing
request and the list of warnings emitted by this call. -/
def injectWorkspace (cfg : ClientConfig) (spec : RequestSpec) :
    RequestSpec × List String :=
  match resolveWorkspace cfg spec with
  | some w =>
      match spec.method with
      | .POST | .PUT | .PATCH =>
          ({ spec with body := mergeField "workspaceId" w spec.body }, [])
      | .GET | .DELETE =>
          ({ spec with query := spec.query ++ [("workspaceId", w)] }, [])
  | none => (spec, ["workspaceId not provided; omitting workspace scoping"])

/-- The workspace id actually transmitted by an outgoing request: the
`workspaceId` body field for body-bearing verbs, the `workspaceId` query
parameter for the others. -/
def sentWorkspace (r : RequestSpec) : Option String :=
  match r.method with
  | .POST | .PUT | .PATCH => lookupField "workspaceId" r.body
  | .GET | .DELETE => lookupField "workspaceId" r.query

/-- Outcome of one transport attempt: a server response with a status
code, or a transport-level failure. -/
inductive HttpOutcome where
  | response (status : Nat)
  | transportFailure
deriving DecidableEq, Repr

/-- Modelled from the spec: the retryable set is transport failure,
request timeout (408), rate limit (429) and 5xx server errors. -/
def isRetryable : HttpOutcome → Bool
  | .transportFailure => true
  | .response s => s == 408 || s == 429 || (500 ≤ s && s < 600)

/-- A 2xx response is a success. -/
def isSuccess : HttpOutcome → Bool
  | .response s => 200 ≤ s && s < 300
  | .transportFailure => false

/-- Modelled from the spec: the retry loop as a small state machine with
an attempt counter and a current delay that is multiplied by the backoff
multiplier after each sleep. `responses n` is the outcome the transport
produces for attempt `n`. Returns the status of the successful response
(if any) and the list of backoff delays slept, in order. -/
def sendAux (cfg : ClientConfig) (responses : Nat → HttpOutcome) :
    Nat → ℚ → Nat → Option Nat × List ℚ
  | _, _, 0 => (none, [])
  | attempt, delay, fuel + 1 =>
      match responses attempt with
      | .response s =>
          if isSuccess (.response s) then (some s, [])
          else if isRetryable (.response s) && attempt < cfg.maxAttempts then
            let rest := sendAux cfg responses (attempt + 1) (delay * cfg.backoffMultiplier) fuel
            (rest.1, delay :: rest.2)
          else (none, [])
      | .transportFailure =>
          if attempt < cfg.maxAttempts then
            let rest := sendAux cfg responses (attempt + 1) (delay * cfg.backoffMultiplier) fuel
            (rest.1, delay :: rest.2)
          else (none, [])

/-- Modelled from the spec: `send` runs the retry loop from attempt 1
with the configured base delay; at most `maxAttempts` attempts run. -/
def send (cfg : ClientConfig) (responses : Nat → HttpOutcome) :
    Option Nat × List ℚ :=
  sendAux cfg responses 1 cfg.baseDelay cfg.maxAttempts

/-! ## Helper lemmas on record lookup and the builder segments -/

lemma lookupKey_append_none {k : String} {xs : List (String × PolicyValue)}
    (h : lookupKey k xs = none) (ys : List (String × PolicyValue)) :
    lookupKey k (xs ++ ys) = lookupKey k ys := by
  induction xs with
  | nil => rfl
  | cons p rest ih =>
      obtain ⟨k₀, v⟩ := p
      by_cases hk : k₀ = k
      · simp [lookupKey, hk] at h
      · simp only [lookupKey, hk, if_false, List.cons_append] at h ⊢
        exact ih h

lemma lookupKey_allowedSegment {k : String} (h : k ≠ "allowed_domains")
    (c : DefaultPolicyPackConfig) : lookupKey k (allowedSegment c) = none := by
  rcases hA : c.allowedDomains with _ | (_ | l) <;>
    simp [allowedSegment, hA, lookupKey, Ne.symm h]

lemma lookupKey_maxQuerySegment {k : String} (h : k ≠ "max_query_size")
    (c : DefaultPolicyPackConfig) : lookupKey k (maxQuerySegment c) = none := by
  rcases hM : c.maxQuerySize with _ | (_ | n) <;>
    simp [maxQuerySegment, hM, lookupKey, Ne.symm h]

lemma lookupKey_approvalSegment {k : String} (h : k ≠ "require_approval_for")
    (c : DefaultPolicyPackConfig) : lookupKey k (approvalSegment c) = none := by
  rcases hR : c.requireApprovalFor with _ | (_ | l) <;>
    simp [approvalSegment, hR, lookupKey, Ne.symm h]

lemma lookupKey_append_some {k : String} {xs : List (String × PolicyValue)}
    {v : PolicyValue} (h : lookupKey k xs = some v)
    (ys : List (String × PolicyValue)) : lookupKey k (xs ++ ys) = some v := by
  induction xs with
  | nil => simp [lookupKey] at h
  | cons p rest ih =>
      obtain ⟨k₀, w⟩ := p
      by_cases hk : k₀ = k <;>
        simp only [lookupKey, hk, if_true, if_false, List.cons_append] at h ⊢ <;>
        [exact h; exact ih h]

lemma lookup_max_query_size (c : DefaultPolicyPackConfig) :
    lookupKey "max_query_size" (buildDefaultPolicies c).policies =
      lookupKey "max_query_size" (maxQuerySegment c) := by
  simp only [buildDefaultPolicies, DefaultPolicyPack.getConfig, List.append_assoc]
  rw [lookupKey_append_none (lookupKey_allowedSegment (by decide) c)]
  rcases hM : lookupKey "max_query_size" (maxQuerySegment c) with _ | v
  · rw [lookupKey_append_none hM,
      lookupKey_append_none (lookupKey_approvalSegment (by decide) c)]
    simp [flagsSegment, lookupKey]
  · exact lookupKey_append_some hM _

lemma lookup_require_approval_for (c : DefaultPolicyPackConfig) :
    lookupKey "require_approval_for" (buildDefaultPolicies c).policies =
      lookupKey "require_approval_for" (approvalSegment c) := by
  simp only [buildDefaultPolicies, DefaultPolicyPack.getConfig, List.append_assoc]
  rw [lookupKey_append_none (lookupKey_allowedSegment (by decide) c),
    lookupKey_append_none (lookupKey_maxQuerySegment (by decide) c)]
  rcases hR : lookupKey "require_approval_for" (approvalSegment c) with _ | v
  · rw [lookupKey_append_none hR]
    simp [flagsSegment, lookupKey]
  · exact lookupKey_append_some hR _

lemma lookup_allowed_domains (c : DefaultPolicyPackConfig) :
    lookupKey "allowed_domains" (buildDefaultPolicies c).policies =
      lookupKey "allowed_domains" (allowedSegment c) := by
  simp only [buildDefaultPolicies, DefaultPolicyPack.getConfig, List.append_assoc]
  rcases hA : lookupKey "allowed_domains" (allowedSegment c) with _ | v
  · rw [lookupKey_append_none hA,
      lookupKey_append_none (lookupKey_maxQuerySegment (by decide) c),
      lookupKey_append_none (lookupKey_approvalSegment (by decide) c)]
    simp [flagsSegment, lookupKey]
  · exact lookupKey_append_some hA _

lemma lookup_block_pii (c : DefaultPolicyPackConfig) :
    lookupKey "block_pii" (buildDefaultPolicies c).policies =
      some (PolicyValue.bool (coalesce c.blockPii true)) := by
  simp only [buildDefaultPolicies, DefaultPolicyPack.getConfig, List.append_assoc]
  rw [lookupKey_append_none (lookupKey_allowedSegment (by decide) c),
    lookupKey_append_none (lookupKey_maxQuerySegment (by decide) c),
    lookupKey_append_none (lookupKey_approvalSegment (by decide) c)]
  simp [flagsSegment, lookupKey, DEFAULT_POLICY_CONFIG]

lemma lookup_block_secrets (c : DefaultPolicyPackConfig) :
    lookupKey "block_secrets" (buildDefaultPolicies c).policies =
      some (PolicyValue.bool (coalesce c.blockSecrets true)) := by
  simp only [buildDefaultPolicies, DefaultPolicyPack.getConfig, List.append_assoc]
  rw [lookupKey_append_none (lookupKey_allowedSegment (by decide) c),
    lookupKey_append_none (lookupKey_maxQuerySegment (by decide) c),
    lookupKey_append_none (lookupKey_approvalSegment (by decide) c)]
  simp [flagsSegment, lookupKey, DEFAULT_POLICY_CONFIG]

lemma filter_maxQuerySegment (c : DefaultPolicyPackConfig) :
    (maxQuerySegment c).filter (fun p => p.1 != "max_query_size") = [] := by
  rcases hM : c.maxQuerySize with _ | (_ | n) <;>
    simp [maxQuerySegment, hM, List.filter]

lemma filter_approvalSegment (c : DefaultPolicyPackConfig) :
    (approvalSegment c).filter (fun p => p.1 != "require_approval_for") = [] := by
  rcases hR : c.requireApprovalFor with _ | (_ | l) <;>
    simp [approvalSegment, hR, List.filter]

lemma keysOf_append (xs ys : List (String × PolicyValue)) :
    keysOf (xs ++ ys) = keysOf xs ++ keysOf ys :=
  List.map_append _ xs ys

lemma keys_allowedSegment {k : String} {c : DefaultPolicyPackConfig}
    (h : k ∈ keysOf (allowedSegment c)) : k = "allowed_domains" := by
  rcases hA : c.allowedDomains with _ | (_ | l) <;>
    simp_all [allowedSegment, keysOf]

lemma keys_maxQuerySegment {k : String} {c : DefaultPolicyPackConfig}
    (h : k ∈ keysOf (maxQuerySegment c)) : k = "max_query_size" := by
  rcases hM : c.maxQuerySize with _ | (_ | n) <;>
    simp [maxQuerySegment, hM, keysOf] at h <;> try exact h

lemma keys_approvalSegment {k : String} {c : DefaultPolicyPackConfig}
    (h : k ∈ keysOf (approvalSegment c)) : k = "require_approval_for" := by
  rcases hR : c.requireApprovalFor with _ | (_ | l) <;>
    simp [approvalSegment, hR, keysOf] at h <;> try exact h

lemma keys_flagsSegment (c : DefaultPolicyPackConfig) :
    keysOf (flagsSegment c) = ["block_pii", "block_secrets"] := rfl

lemma allowedSegment_set_mqs (c : DefaultPolicyPackConfig) (v : Option (Option Int)) :
    allowedSegment { c with maxQuerySize := v } = allowedSegment c := rfl

lemma approvalSegment_set_mqs (c : DefaultPolicyPackConfig) (v : Option (Option Int)) :
    approvalSegment { c with maxQuerySize := v } = approvalSegment c := rfl

lemma flagsSegment_set_mqs (c : DefaultPolicyPackConfig) (v : Option (Option Int)) :
    flagsSegment { c with maxQuerySize := v } = flagsSegment c := rfl

lemma allowedSegment_set_raf (c : DefaultPolicyPackConfig)
    (v : Option (Option (List String))) :
    allowedSegment { c with requireApprovalFor := v } = allowedSegment c := rfl

lemma maxQuerySegment_set_raf (c : DefaultPolicyPackConfig)
    (v : Option (Option (List String))) :
    maxQuerySegment { c with requireApprovalFor := v } = maxQuerySegment c := rfl

lemma flagsSegment_set_raf (c : DefaultPolicyPackConfig)
    (v : Option (Option (List String))) :
    flagsSegment { c with requireApprovalFor := v } = flagsSegment c := rfl

/-! ## Claim theorems for the Policy Pack Builder -/

/-- C1: the builder applied to an empty override object (equivalently,
`new DefaultPolicyPack` with no argument followed by `getConfig`) yields
exactly the four default policies in source insertion order, and the
result has no `allowed_domains` key. -/
theorem defaultPolicies_empty_overrides :
    buildDefaultPolicies {} =
      { policies :=
          [("max_query_size", PolicyValue.num 1000),
           ("require_approval_for",
             PolicyValue.strList ["delete", "update", "export"]),
           ("block_pii", PolicyValue.bool true),
           ("block_secrets", PolicyValue.bool true)] } ∧
    (DefaultPolicyPack.mk {}).getConfig = buildDefaultPolicies {} ∧
    lookupKey "allowed_domains" (buildDefaultPolicies {}).policies = none :=
  ⟨rfl, rfl, rfl⟩

/-- C2: `maxQuerySize` is tri-state — an explicit null omits the
`max_query_size` key, an unset field defaults it to 1000, and a provided
number passes through; and the rest of the output does not depend on the
`maxQuerySize` override. -/
theorem maxQuerySize_tristate (c : DefaultPolicyPackConfig) :
    (c.maxQuerySize = some none →
      lookupKey "max_query_size" (buildDefaultPolicies c).policies = none) ∧
    (c.maxQuerySize = none →
      lookupKey "max_query_size" (buildDefaultPolicies c).policies =
        some (PolicyValue.num 1000)) ∧
    (∀ n : Int, c.maxQuerySize = some (some n) →
      lookupKey "max_query_size" (buildDefaultPolicies c).policies =
        some (PolicyValue.num n)) ∧
    (∀ v₁ v₂ : Option (Option Int),
      (buildDefaultPolicies { c with maxQuerySize := v₁ }).policies.filter
          (fun p => p.1 != "max_query_size") =
        (buildDefaultPolicies { c with maxQuerySize := v₂ }).policies.filter
          (fun p => p.1 != "max_query_size")) := by
  refine ⟨?_, ?_, ?_, ?_⟩
  · intro h
    rw [lookup_max_query_size]
    simp [maxQuerySegment, h, lookupKey]
  · intro h
    rw [lookup_max_query_size]
    simp [maxQuerySegment, h, DEFAULT_POLICY_CONFIG, lookupKey]
  · intro n h
    rw [lookup_max_query_size]
    simp [maxQuerySegment, h, lookupKey]
  · intro v₁ v₂
    simp only [buildDefaultPolicies, DefaultPolicyPack.getConfig,
      List.filter_append, allowedSegment_set_mqs, approvalSegment_set_mqs,
      flagsSegment_set_mqs, filter_maxQuerySegment]

/-- Witness for C2 at concrete overrides: explicit null, unset, and the
value 42. -/
theorem maxQuerySize_tristate_witness :
    lookupKey "max_query_size"
        (buildDefaultPolicies { maxQuerySize := some none }).policies = none ∧
    lookupKey "max_query_size" (buildDefaultPolicies {}).policies =
      some (PolicyValue.num 1000) ∧
    lookupKey "max_query_size"
        (buildDefaultPolicies { maxQuerySize := some (some 42) }).policies =
      some (PolicyValue.num 42) :=
  ⟨(maxQuerySize_tristate _).1 rfl,
   (maxQuerySize_tristate _).2.1 rfl,
   (maxQuerySize_tristate _).2.2.1 42 rfl⟩

/-- C3: `requireApprovalFor` is tri-state — an explicit null omits the
`require_approval_for` key, an unset field defaults it to
["delete", "update", "export"], and a provided list passes through
verbatim. -/
theorem requireApprovalFor_tristate (c : DefaultPolicyPackConfig) :
    (c.requireApprovalFor = some none →
      lookupKey "require_approval_for" (buildDefaultPolicies c).policies = none) ∧
    (c.requireApprovalFor = none →
      lookupKey "require_approval_for" (buildDefaultPolicies c).policies =
        some (PolicyValue.strList ["delete", "update", "export"])) ∧
    (∀ l : List String, c.requireApprovalFor = some (some l) →
      lookupKey "require_approval_for" (buildDefaultPolicies c).policies =
        some (PolicyValue.strList l)) ∧
    (∀ v₁ v₂ : Option (Option (List String)),
      (buildDefaultPolicies { c with requireApprovalFor := v₁ }).policies.filter
          (fun p => p.1 != "require_approval_for") =
        (buildDefaultPolicies { c with requireApprovalFor := v₂ }).policies.filter
          (fun p => p.1 != "require_approval_for")) := by
  refine ⟨?_, ?_, ?_, ?_⟩
  · intro h
    rw [lookup_require_approval_for]
    simp [approvalSegment, h, lookupKey]
  · intro h
    rw [lookup_require_approval_for]
    simp [approvalSegment, h, DEFAULT_POLICY_CONFIG, lookupKey]
  · intro l h
    rw [lookup_require_approval_for]
    simp [approvalSegment, h, lookupKey]
  · intro v₁ v₂
    simp only [buildDefaultPolicies, DefaultPolicyPack.getConfig,
      List.filter_append, allowedSegment_set_raf, maxQuerySegment_set_raf,
      flagsSegment_set_raf, filter_approvalSegment]

/-- Witness for C3 at concrete overrides: explicit null, unset, and a
one-element list. -/
theorem requireApprovalFor_tristate_witness :
    lookupKey "require_approval_for"
        (buildDefaultPolicies { requireApprovalFor := some none }).policies =
      none ∧
    lookupKey "require_approval_for" (buildDefaultPolicies {}).policies =
      some (PolicyValue.strList ["delete", "update", "export"]) ∧
    lookupKey "require_approval_for"
        (buildDefaultPolicies
          { requireApprovalFor := some (some ["drop"]) }).policies =
      some (PolicyValue.strList ["drop"]) :=
  ⟨(requireApprovalFor_tristate _).1 rfl,
   (requireApprovalFor_tristate _).2.1 rfl,
   (requireApprovalFor_tristate _).2.2.1 ["drop"] rfl⟩

/-- C4: the output has an `allowed_domains` key exactly when the
`allowedDomains` override is a real list (not null, not unset); a
provided list, including the empty one, passes through verbatim. -/
theorem allowedDomains_passthrough (c : DefaultPolicyPackConfig) :
    (∀ l : List String, c.allowedDomains = some (some l) →
      lookupKey "allowed_domains" (buildDefaultPolicies c).policies =
        some (PolicyValue.strList l)) ∧
    (c.allowedDomains = none ∨ c.allowedDomains = some none →
      lookupKey "allowed_domains" (buildDefaultPolicies c).policies = none) ∧
    ("allowed_domains" ∈ keysOf (buildDefaultPolicies c).policies ↔
      ∃ l : List String, c.allowedDomains = some (some l)) := by
  refine ⟨?_, ?_, ?_⟩
  · intro l h
    rw [lookup_allowed_domains]
    simp [allowedSegment, h, lookupKey]
  · intro h
    rw [lookup_allowed_domains]
    rcases h with h | h <;> simp [allowedSegment, h, lookupKey]
  · constructor
    · intro h
      simp only [buildDefaultPolicies, DefaultPolicyPack.getConfig,
        keysOf_append, List.mem_append] at h
      rcases h with ((h | h) | h) | h
      · rcases hA : c.allowedDomains with _ | (_ | l) <;>
          simp [allowedSegment, hA, keysOf] at h
        exact ⟨l, rfl⟩
      · exact absurd (keys_maxQuerySegment h) (by decide)
      · exact absurd (keys_approvalSegment h) (by decide)
      · simp [keys_flagsSegment] at h
    · rintro ⟨l, h⟩
      simp [buildDefaultPolicies, DefaultPolicyPack.getConfig, keysOf_append,
        List.mem_append, allowedSegment, h, keysOf]

/-- Witness for C4 at concrete overrides: an empty list passes through,
an explicit null and an unset field omit the key. -/
theorem allowedDomains_passthrough_witness :
    lookupKey "allowed_domains"
        (buildDefaultPolicies { allowedDomains := some (some []) }).policies =
      some (PolicyValue.strList []) ∧
    lookupKey "allowed_domains"
        (buildDefaultPolicies { allowedDomains := some none }).policies = none ∧
    lookupKey "allowed_domains" (buildDefaultPolicies {}).policies = none :=
  ⟨(allowedDomains_passthrough _).1 [] rfl,
   (allowedDomains_passthrough _).2.1 (Or.inr rfl),
   (allowedDomains_passthrough _).2.1 (Or.inl rfl)⟩

/-- C5: `block_pii` and `block_secrets` carry the provided boolean when
set and default to true when unset; in particular an override of only
`blockSecrets := false` yields exactly the defaults with
`block_secrets` set to false. -/
theorem boolean_flags_default_true (c : DefaultPolicyPackConfig) :
    (∀ b : Bool, c.blockPii = some (some b) →
      lookupKey "block_pii" (buildDefaultPolicies c).policies =
        some (PolicyValue.bool b)) ∧
    (c.blockPii = none →
      lookupKey "block_pii" (buildDefaultPolicies c).policies =
        some (PolicyValue.bool true)) ∧
    (∀ b : Bool, c.blockSecrets = some (some b) →
      lookupKey "block_secrets" (buildDefaultPolicies c).policies =
        some (PolicyValue.bool b)) ∧
    (c.blockSecrets = none →
      lookupKey "block_secrets" (buildDefaultPolicies c).policies =
        some (PolicyValue.bool true)) ∧
    buildDefaultPolicies { blockSecrets := some (some false) } =
      { policies :=
          [("max_query_size", PolicyValue.num 1000),
           ("require_approval_for",
             PolicyValue.strList ["delete", "update", "export"]),
           ("block_pii", PolicyValue.bool true),
           ("block_secrets", PolicyValue.bool false)] } := by
  refine ⟨?_, ?_, ?_, ?_, rfl⟩
  · intro b h
    rw [lookup_block_pii, h]
    simp [coalesce]
  · intro h
    rw [lookup_block_pii, h]
    simp [coalesce]
  · intro b h
    rw [lookup_block_secrets, h]
    simp [coalesce]
  · intro h
    rw [lookup_block_secrets, h]
    simp [coalesce]

/-- Witness for C5 at concrete overrides. -/
theorem boolean_flags_default_true_witness :
    lookupKey "block_pii"
        (buildDefaultPolicies { blockPii := some (some false) }).policies =
      some (PolicyValue.bool false) ∧
    lookupKey "block_pii" (buildDefaultPolicies {}).policies =
      some (PolicyValue.bool true) ∧
    lookupKey "block_secrets"
        (buildDefaultPolicies { blockSecrets := some (some false) }).policies =
      some (PolicyValue.bool false) ∧
    lookupKey "block_secrets" (buildDefaultPolicies {}).policies =
      some (PolicyValue.bool true) :=
  ⟨(boolean_flags_default_true _).1 false rfl,
   (boolean_flags_default_true _).2.1 rfl,
   (boolean_flags_default_true _).2.2.1 false rfl,
   (boolean_flags_default_true _).2.2.2.1 rfl⟩

/-- C6: every key of every output is one of the five snake_case names,
and `block_pii` and `block_secrets` are present in every output. -/
theorem output_keys_snake_case (c : DefaultPolicyPackConfig) :
    (∀ k : String, k ∈ keysOf (buildDefaultPolicies c).policies →
      k ∈ ["allowed_domains", "max_query_size", "require_approval_for",
        "block_pii", "block_secrets"]) ∧
    "block_pii" ∈ keysOf (buildDefaultPolicies c).policies ∧
    "block_secrets" ∈ keysOf (buildDefaultPolicies c).policies := by
  refine ⟨?_, ?_, ?_⟩
  · intro k h
    simp only [buildDefaultPolicies, DefaultPolicyPack.getConfig,
      keysOf_append, List.mem_append] at h
    rcases h with ((h | h) | h) | h
    · rw [keys_allowedSegment h]; decide
    · rw [keys_maxQuerySegment h]; decide
    · rw [keys_approvalSegment h]; decide
    · rw [keys_flagsSegment] at h
      simp only [List.mem_cons, List.not_mem_nil, or_false] at h
      rcases h with h | h <;> subst h <;> decide
  · simp [buildDefaultPolicies, DefaultPolicyPack.getConfig, keysOf_append,
      List.mem_append, keys_flagsSegment]
  · simp [buildDefaultPolicies, DefaultPolicyPack.getConfig, keysOf_append,
      List.mem_append, keys_flagsSegment]

/-- Witness for C6: an output key of a concrete call is among the five
snake_case names. -/
theorem output_keys_snake_case_witness :
    "max_query_size" ∈
      ["allowed_domains", "max_query_size", "require_approval_for",
        "block_pii", "block_secrets"] ∧
    "block_pii" ∈ keysOf (buildDefaultPolicies {}).policies :=
  ⟨(output_keys_snake_case {}).1 "max_query_size" (by decide),
   (output_keys_snake_case {}).2.1⟩

/-- C7: the builder is pure and deterministic — equal stored
configurations give equal results, the state-passing embedding of the
method leaves the receiver unchanged, and a second invocation on the
post-state returns the same result. -/
theorem getConfig_pure (p q : DefaultPolicyPack) :
    (p.config = q.config → p.getConfigM.1 = q.getConfigM.1) ∧
    p.getConfigM.2 = p ∧
    (p.getConfigM.2).getConfigM.1 = p.getConfigM.1 := by
  refine ⟨?_, rfl, rfl⟩
  intro h
  obtain ⟨cp⟩ := p
  obtain ⟨cq⟩ := q
  simp only at h
  simp [DefaultPolicyPack.getConfigM, DefaultPolicyPack.getConfig, h]

/-- Witness for C7 at two concrete packs with equal configurations. -/
theorem getConfig_pure_witness :
    (DefaultPolicyPack.mk { blockPii := some (some false) }).getConfigM.1 =
      (DefaultPolicyPack.mk { blockPii := some (some false) }).getConfigM.1 ∧
    (DefaultPolicyPack.mk {}).getConfigM.2 = DefaultPolicyPack.mk {} :=
  ⟨(getConfig_pure (DefaultPolicyPack.mk { blockPii := some (some false) })
      (DefaultPolicyPack.mk { blockPii := some (some false) })).1 rfl,
   (getConfig_pure (DefaultPolicyPack.mk {}) (DefaultPolicyPack.mk {})).2.1⟩

/-- C10: the boolean flags have no explicit-null opt-out — an override
carrying null for `blockPii` or `blockSecrets` still emits the key, with
the default value true. -/
theorem null_boolean_flags_keep_default (c : DefaultPolicyPackConfig) :
    (c.blockPii = some none →
      lookupKey "block_pii" (buildDefaultPolicies c).policies =
        some (PolicyValue.bool true)) ∧
    (c.blockSecrets = some none →
      lookupKey "block_secrets" (buildDefaultPolicies c).policies =
        some (PolicyValue.bool true)) := by
  refine ⟨?_, ?_⟩
  · intro h
    rw [lookup_block_pii, h]
    simp [coalesce]
  · intro h
    rw [lookup_block_secrets, h]
    simp [coalesce]

/-- Witness for C10 at an override with both flags explicitly null. -/
theorem null_boolean_flags_keep_default_witness :
    lookupKey "block_pii"
        (buildDefaultPolicies
          { blockPii := some none, blockSecrets := some none }).policies =
      some (PolicyValue.bool true) ∧
    lookupKey "block_secrets"
        (buildDefaultPolicies
          { blockPii := some none, blockSecrets := some none }).policies =
      some (PolicyValue.bool true) :=
  ⟨(null_boolean_flags_keep_default _).1 rfl,
   (null_boolean_flags_keep_default _).2 rfl⟩

/-! ## Claim theorems for the Request Layer (spec-modelled) -/

lemma lookupField_append_none {k : String} {xs : List (String × String)}
    (h : lookupField k xs = none) (ys : List (String × String)) :
    lookupField k (xs ++ ys) = lookupField k ys := by
  induction xs with
  | nil => rfl
  | cons p rest ih =>
      obtain ⟨k₀, v⟩ := p
      by_cases hk : k₀ = k
      · simp [lookupField, hk] at h
      · simp only [lookupField, hk, if_false, List.cons_append] at h ⊢
        exact ih h

/-- C8: workspace-id injection — a per-call override always wins over
the client default; with no override the client default is used; with
neither, the request goes out with no workspace field and exactly one
non-fatal warning is emitted (the call still produces a request, so no
error is raised). Stated for requests whose caller-supplied body and
query do not already carry a `workspaceId` field. -/
theorem workspace_injection (cfg : ClientConfig) (spec : RequestSpec)
    (hb : lookupField "workspaceId" spec.body = none)
    (hq : lookupField "workspaceId" spec.query = none) :
    (∀ w : String, spec.workspaceOverride = some w →
      sentWorkspace (injectWorkspace cfg spec).1 = some w ∧
      (injectWorkspace cfg spec).2 = []) ∧
    (spec.workspaceOverride = none → ∀ d : String,
      cfg.defaultWorkspaceId = some d →
      sentWorkspace (injectWorkspace cfg spec).1 = some d ∧
      (injectWorkspace cfg spec).2 = []) ∧
    (spec.workspaceOverride = none → cfg.defaultWorkspaceId = none →
      sentWorkspace (injectWorkspace cfg spec).1 = none ∧
      (injectWorkspace cfg spec).2.length = 1) := by
  refine ⟨?_, ?_, ?_⟩
  · intro w hw
    cases hm : spec.method <;>
      simp [injectWorkspace, resolveWorkspace, hw, hm, sentWorkspace,
        mergeField, hb, lookupField_append_none hb,
        lookupField_append_none hq, lookupField]
  · intro hw d hd
    cases hm : spec.method <;>
      simp [injectWorkspace, resolveWorkspace, hw, hd, hm, sentWorkspace,
        mergeField, hb, lookupField_append_none hb,
        lookupField_append_none hq, lookupField]
  · intro hw hd
    cases hm : spec.method <;>
      simp [injectWorkspace, resolveWorkspace, hw, hd, hm, sentWorkspace,
        hb, hq]

/-- Witness for C8: a POST with an override transmits the override even
against a conflicting client default; a GET with neither override nor
default transmits no workspace id and emits exactly one warning. -/
theorem workspace_injection_witness :
    sentWorkspace (injectWorkspace
        ⟨"key", "https://api.example", some "ws-default", 3, 1, 2⟩
        ⟨HttpMethod.POST, "/agents", [], [], some "ws-override"⟩).1 =
      some "ws-override" ∧
    sentWorkspace (injectWorkspace
        ⟨"key", "https://api.example", none, 3, 1, 2⟩
        ⟨HttpMethod.GET, "/agents", [], [], none⟩).1 = none ∧
    (injectWorkspace ⟨"key", "https://api.example", none, 3, 1, 2⟩
        ⟨HttpMethod.GET, "/agents", [], [], none⟩).2.length = 1 :=
  ⟨((workspace_injection
        ⟨"key", "https://api.example", some "ws-default", 3, 1, 2⟩
        ⟨HttpMethod.POST, "/agents", [], [], some "ws-override"⟩
        rfl rfl).1 "ws-override" rfl).1,
   ((workspace_injection ⟨"key", "https://api.example", none, 3, 1, 2⟩
        ⟨HttpMethod.GET, "/agents", [], [], none⟩ rfl rfl).2.2 rfl rfl).1,
   ((workspace_injection ⟨"key", "https://api.example", none, 3, 1, 2⟩
        ⟨HttpMethod.GET, "/agents", [], [], none⟩ rfl rfl).2.2 rfl rfl).2⟩

lemma sendAux_delay_closed_form (cfg : ClientConfig)
    (res : Nat → HttpOutcome) :
    ∀ (fuel attempt : Nat) (d : ℚ) (i : Nat) (x : ℚ),
      ((sendAux cfg res attempt d fuel).2)[i]? = some x →
      x = d * cfg.backoffMultiplier ^ i := by
  intro fuel
  induction fuel with
  | zero =>
      intro attempt d i x h
      simp [sendAux] at h
  | succ f ih =>
      intro attempt d i x h
      rcases hr : res attempt with s | _ <;> simp only [sendAux, hr] at h
      · split_ifs at h
        · simp at h
        · cases i with
          | zero =>
              simp at h
              simp [← h, pow_zero, mul_one]
          | succ j =>
              simp only [List.getElem?_cons_succ] at h
              rw [ih (attempt + 1) (d * cfg.backoffMultiplier) j x h,
                pow_succ]
              ring
        · simp at h
      · split_ifs at h
        · cases i with
          | zero =>
              simp at h
              simp [← h, pow_zero, mul_one]
          | succ j =>
              simp only [List.getElem?_cons_succ] at h
              rw [ih (attempt + 1) (d * cfg.backoffMultiplier) j x h,
                pow_succ]
              ring
        · simp at h

lemma sendAux_delay_count (cfg : ClientConfig) (res : Nat → HttpOutcome) :
    ∀ (fuel attempt : Nat) (d : ℚ),
      ((sendAux cfg res attempt d fuel).2).length ≤
        cfg.maxAttempts - attempt := by
  intro fuel
  induction fuel with
  | zero =>
      intro attempt d
      simp [sendAux]
  | succ f ih =>
      intro attempt d
      rcases hr : res attempt with s | _ <;> simp only [sendAux, hr]
      · split_ifs with h₁ h₂
        · simp
        · simp only [Bool.and_eq_true, decide_eq_true_eq] at h₂
          have := ih (attempt + 1) (d * cfg.backoffMultiplier)
          simp only [List.length_cons]
          omega
        · simp
      · split_ifs with h₁
        · have := ih (attempt + 1) (d * cfg.backoffMultiplier)
          simp only [List.length_cons]
          omega
        · simp

/-- C9: in the retry loop, the backoff delay slept before retry attempt
n equals baseDelay * backoffMultiplier^(n-1) in exact rational
arithmetic, and at most maxAttempts - 1 retries (hence delays) occur. -/
theorem backoff_delay_formula (cfg : ClientConfig) (res : Nat → HttpOutcome)
    (n : Nat) (x : ℚ) (_hn : 1 ≤ n)
    (h : ((send cfg res).2)[n - 1]? = some x) :
    x = cfg.baseDelay * cfg.backoffMultiplier ^ (n - 1) ∧
    ((send cfg res).2).length ≤ cfg.maxAttempts - 1 :=
  ⟨sendAux_delay_closed_form cfg res cfg.maxAttempts 1 cfg.baseDelay
      (n - 1) x h,
   sendAux_delay_count cfg res cfg.maxAttempts 1 cfg.baseDelay⟩

/-- Witness for C9: base delay 5, multiplier 2, four max attempts, a
transport that always answers 500 — the delay before the second retry is
10 = 5 * 2^1, and at most three delays occur. -/
theorem backoff_delay_formula_witness :
    ((send ⟨"key", "https://api.example", none, 4, 5, 2⟩
        (fun _ => HttpOutcome.response 500)).2)[2 - 1]? = some 10 ∧
    (10 : ℚ) = 5 * 2 ^ (2 - 1) ∧
    ((send ⟨"key", "https://api.example", none, 4, 5, 2⟩
        (fun _ => HttpOutcome.response 500)).2).length ≤ 4 - 1 :=
  have h : ((send ⟨"key", "https://api.example", none, 4, 5, 2⟩
      (fun _ => HttpOutcome.response 500)).2)[2 - 1]? = some 10 := by
    norm_num [send, sendAux, isSuccess, isRetryable]
  ⟨h,
   (backoff_delay_formula _ _ 2 10 (by norm_num) h).1,
   (backoff_delay_formula _ _ 2 10 (by norm_num) h).2⟩

end AnchorSDK
